import Mathlib

/-!
Verification of the transcript acquisition and fallback-resolution pipeline
of src/fetch_transcripts.py (chatbot-zen).

The embedding models the output directory of one video as an association list from
file name to byte size, external processes (yt-dlp invocations) as arbitrary
file-system transformers supplied by an environment, and the
youtube-transcript-api as an oracle whose calls may raise Python exceptions
(modelled with Except).  the Python pathlib glob is embedded faithfully,
including its fnmatch character-class semantics, because the source builds
glob patterns containing literal square brackets.
-/

/-! Section: File-system model

The output directory of one video: an association list from file name to size in
bytes.  Lookup returns the first matching entry; writing replaces any entry
of the same name (files in a directory have unique names). -/

abbrev FS := List (String × Nat)

def FS.lookup : FS → String → Option Nat
  | [], _ => none
  | (n, sz) :: rest, name => if n = name then some sz else FS.lookup rest name

/-- Overwriting file creation, as Python open(path, "w") followed by write. -/
def FS.write (fs : FS) (name : String) (sz : Nat) : FS :=
  (name, sz) :: fs.filter (fun e => e.1 != name)

/-! Section: Python fnmatch / pathlib.glob model

pathlib.Path.glob matches a single-component pattern against each entry name
with fnmatch.translate semantics: a star matches any character sequence, a
question mark one character, and a bracketed group is a character class (an
exclamation mark right after the opening bracket negates it; an unclosed
bracket is a literal bracket; inside a class, x-y denotes a codepoint range
unless the dash is first or last).  For example fnmatch.translate of the
string Transcript space bracket abc bracket dot star yields the regex
(?s:Transcript\ [abc]\..*)\Z — the bracketed id is a class matching ONE
character drawn from the id, not the literal bracketed id. -/

inductive GlobTok where
  | lit (c : Char)
  | anyOne
  | anyStar
  | cls (negated : Bool) (content : List Char)
deriving DecidableEq

/-- Split a character list at its first closing bracket.
Returns the content before it and the remainder after it. -/
def findClose : List Char → Option (List Char × List Char)
  | [] => none
  | c :: r =>
    if c = ']' then some ([], r)
    else
      match findClose r with
      | some (a, b) => some (c :: a, b)
      | none => none

/-- CPython fnmatch.translate bracket scan, applied to the characters after
an opening bracket: skip a leading exclamation mark, then one closing bracket
(taken literally), then scan to the next closing bracket.  Returns the class
body (including any leading exclamation mark) and the rest of the pattern, or
none when the bracket is unclosed. -/
def scanCls : List Char → Option (List Char × List Char)
  | '!' :: ']' :: r =>
    match findClose r with
    | some (a, b) => some ('!' :: ']' :: a, b)
    | none => none
  | '!' :: r =>
    match findClose r with
    | some (a, b) => some ('!' :: a, b)
    | none => none
  | ']' :: r =>
    match findClose r with
    | some (a, b) => some (']' :: a, b)
    | none => none
  | r => findClose r

/-- Membership of a character in a class body, with regex range semantics:
an interior dash makes a codepoint range (empty when reversed); a leading or
trailing dash is literal. -/
def clsMatch : List Char → Char → Bool
  | [], _ => false
  | a :: '-' :: b :: rest, c =>
    (decide (a ≤ c) && decide (c ≤ b)) || clsMatch rest c
  | a :: rest, c => (a == c) || clsMatch rest c

/-- Tokenizer for fnmatch patterns.  The fuel is the pattern length; every
step consumes at least one pattern character, so the fuel never runs out when
initialized that way. -/
def globTokenizeAux : Nat → List Char → List GlobTok
  | 0, _ => []
  | _ + 1, [] => []
  | fuel + 1, c :: r =>
    if c = '*' then .anyStar :: globTokenizeAux fuel r
    else if c = '?' then .anyOne :: globTokenizeAux fuel r
    else if c = '[' then
      match scanCls r with
      | none => .lit '[' :: globTokenizeAux fuel r
      | some (stuff, rest) =>
        (match stuff with
         | '!' :: content => GlobTok.cls true content
         | content => GlobTok.cls false content) :: globTokenizeAux fuel rest
    else .lit c :: globTokenizeAux fuel r

def globTokenize (s : List Char) : List GlobTok :=
  globTokenizeAux s.length s

/-- Full-string matching of a token list against a name.  The fuel bound
tokens + characters + 1 suffices: every step either consumes a token, or
keeps the star token while consuming a character. -/
def globMatchAux : Nat → List GlobTok → List Char → Bool
  | 0, _, _ => false
  | _ + 1, [], s => s.isEmpty
  | fuel + 1, .anyStar :: ts, s =>
    globMatchAux fuel ts s ||
      (match s with
       | [] => false
       | _ :: s' => globMatchAux fuel (.anyStar :: ts) s')
  | fuel + 1, .anyOne :: ts, s =>
    match s with
    | [] => false
    | _ :: s' => globMatchAux fuel ts s'
  | fuel + 1, .lit a :: ts, s =>
    match s with
    | [] => false
    | c :: s' => (a == c) && globMatchAux fuel ts s'
  | fuel + 1, .cls neg content :: ts, s =>
    match s with
    | [] => false
    | c :: s' => (clsMatch content c != neg) && globMatchAux fuel ts s'

def globMatch (ts : List GlobTok) (s : List Char) : Bool :=
  globMatchAux (ts.length + s.length + 1) ts s

/-- fnmatch of one directory-entry name against a glob pattern, as used by
pathlib.Path.glob for single-component patterns (case-sensitive on POSIX). -/
def fnmatchGlob (pat name : String) : Bool :=
  globMatch (globTokenize pat.data) name.data

/-! Section: Output paths and acceptability (fetch_transcripts lines 75-83) -/

/-- Source: _sub_path(out_dir, video_id, lang); paths are modelled relative
to the per-video output directory, so only the file name remains. -/
def _sub_path (vid lang : String) : String :=
  "Transcript [" ++ vid ++ "]." ++ lang ++ ".srt"

/-- A file is acceptable when it exists and its size strictly exceeds 100
bytes (source: p.exists() and p.stat().st_size > 100). -/
def acceptable (fs : FS) (p : String) : Bool :=
  match FS.lookup fs p with
  | some sz => decide (100 < sz)
  | none => false

/-- Source: the for-loop body of _find_any_en, generalized over the language
list it iterates. -/
def findFirstAcceptable (fs : FS) : List String → Option String
  | [] => none
  | p :: rest => if acceptable fs p then some p else findFirstAcceptable fs rest

/-- Source: _find_any_en(out_dir, video_id): try en-US then en. -/
def _find_any_en (fs : FS) (vid : String) : Option String :=
  findFirstAcceptable fs [_sub_path vid "en-US", _sub_path vid "en"]

/-! Section: Subtitle serializer (_write_srt_file, lines 85-103)

Transcript segments carry optional text (item.get may yield None), a start
time and an optional duration defaulting to 0.0.  Times are modelled as
rationals; the arithmetic the source performs on them (addition, floor
division, modulo, truncation) is exact on the values involved. -/

structure Segment where
  text : Option String
  start : ℚ
  duration : Option ℚ
deriving DecidableEq

/-- Python int() on a number: truncation toward zero. -/
def pytrunc (t : ℚ) : ℤ :=
  if 0 ≤ t then ⌊t⌋ else ⌈t⌉

/-- Python float modulo for a positive divisor: the representative of t mod b
in the interval from 0 (inclusive) to b (exclusive). -/
def pyfmod (t b : ℚ) : ℚ :=
  t - b * (⌊t / b⌋ : ℤ)

/-- Python zero-padded integer formatting, sign before the padding zeros. -/
def padInt (w : Nat) (n : ℤ) : String :=
  if n < 0 then
    let digits := toString (-n)
    "-" ++ String.mk (List.replicate (w - 1 - digits.length) '0') ++ digits
  else
    let digits := toString n
    String.mk (List.replicate (w - digits.length) '0') ++ digits

/-- Source: fmt_time inside _write_srt_file.  ms = int((t - int(t)) * 1000);
h = int(t // 3600); m = int((t mod 3600) // 60); s = int(t mod 60). -/
def fmt_time (t : ℚ) : String :=
  let ms := pytrunc ((t - (pytrunc t : ℚ)) * 1000)
  let h := ⌊t / 3600⌋
  let m := ⌊pyfmod t 3600 / 60⌋
  let s := pytrunc (pyfmod t 60)
  padInt 2 h ++ ":" ++ padInt 2 m ++ ":" ++ padInt 2 s ++ "," ++ padInt 3 ms

/-- Python str.strip() whitespace predicate, for the ASCII whitespace that can
occur in subtitle text. -/
def isPyWS (c : Char) : Bool :=
  c = ' ' || c = '\t' || c = '\n' || c = '\r' || c = '\x0b' || c = '\x0c'

/-- Python str.strip(): drop leading and trailing whitespace. -/
def pyStrip (s : String) : String :=
  String.mk (((s.data.dropWhile isPyWS).reverse.dropWhile isPyWS).reverse)

/-- Source line 93: (item.get("text") or "").replace("\n", " ").strip().
A single-character replace is a character-wise map. -/
def flattenText (t : Option String) : String :=
  pyStrip (String.mk ((t.getD "").data.map fun c => if c = '\n' then ' ' else c))

/-- Source: the accumulation loop of _write_srt_file.  Segments whose
flattened text is empty are skipped without consuming an index; each kept
segment contributes four lines: index, time range, text, blank. -/
def srtBlocks (idx : Nat) : List Segment → List String
  | [] => []
  | item :: rest =>
    let text := flattenText item.text
    if text = "" then srtBlocks idx rest
    else
      [toString idx,
       fmt_time item.start ++ " --> " ++ fmt_time (item.start + item.duration.getD 0),
       text, ""]
        ++ srtBlocks (idx + 1) rest

/-- Python newline join of the accumulated lines. -/
def joinNL : List String → String
  | [] => ""
  | [x] => x
  | x :: xs => x ++ "\n" ++ joinNL xs

/-- Source line 101: content = newline-join of lines, stripped, plus a final
newline. -/
def srtContent (transcript : List Segment) : String :=
  pyStrip (joinNL (srtBlocks 1 transcript)) ++ "\n"

/-- Source: _write_srt_file(out_path, transcript) writes the serialized
content; in the file-system model only the UTF-8 byte size is recorded. -/
def _write_srt_file (fs : FS) (out : String) (transcript : List Segment) : FS :=
  FS.write fs out (srtContent transcript).utf8ByteSize

/-! Section: Secondary resolver (_fallback_yta, lines 105-161)

The youtube-transcript-api is an oracle fixed for one video id.  Each call
either returns a value or raises a Python exception; NoTranscriptFound and
TranscriptsDisabled are the two exception classes the source catches
selectively, every other exception only reaches the catch-all handlers. -/

inductive PyErr where
  | noTranscriptFound
  | transcriptsDisabled
  | other (msg : String)
deriving DecidableEq

/-- Whether an exception is caught by an except clause naming exactly
NoTranscriptFound and TranscriptsDisabled. -/
def PyErr.isNTForTD : PyErr → Bool
  | .noTranscriptFound => true
  | .transcriptsDisabled => true
  | .other _ => false

instance {ε α : Type} [DecidableEq ε] [DecidableEq α] : DecidableEq (Except ε α) := fun
  | .ok a, .ok b =>
    match decEq a b with
    | isTrue h => isTrue (by rw [h])
    | isFalse h => isFalse (by intro hh; cases hh; exact h rfl)
  | .ok _, .error _ => isFalse (by intro h; cases h)
  | .error _, .ok _ => isFalse (by intro h; cases h)
  | .error a, .error b =>
    match decEq a b with
    | isTrue h => isTrue (by rw [h])
    | isFalse h => isFalse (by intro hh; cases hh; exact h rfl)

/-- One transcript track of the listing: its language code, whether it is
auto-generated (getattr default False), and the behaviours of
translate("en").fetch() and of fetch(). -/
structure Track where
  language : String
  is_generated : Bool
  translateFetch : Except PyErr (List Segment)
  fetch : Except PyErr (List Segment)
deriving DecidableEq

/-- The API oracle for one video: the import statement itself may raise;
get_transcript is indexed by the single requested language. -/
structure YtaApi where
  importErr : Option PyErr
  get_transcript : String → Except PyErr (List Segment)
  list_transcripts : Except PyErr (List Track)

/-- Source lines 116-124: the direct-language loop.  A successful fetch
writes the file even when it turns out too small, in which case the loop
continues; NoTranscriptFound and TranscriptsDisabled skip to the next
language; any other exception propagates out of the loop. -/
def directLoop (api : YtaApi) (fs : FS) (vid : String) :
    List String → FS × Except PyErr (Option String)
  | [] => (fs, .ok none)
  | lang :: rest =>
    match api.get_transcript lang with
    | .ok tr =>
      let out := _sub_path vid lang
      let fs' := _write_srt_file fs out tr
      if acceptable fs' out then (fs', .ok (some out))
      else directLoop api fs' vid rest
    | .error e =>
      if e.isNTForTD then directLoop api fs vid rest
      else (fs, .error e)

/-- Source lines 132-142: first manually-authored track if any, else first
auto-generated track. -/
def pickCandidate (listing : List Track) : Option Track :=
  match listing.find? (fun tr => !tr.is_generated) with
  | some tr => some tr
  | none => listing.find? (fun tr => tr.is_generated)

/-- Source lines 144-158: try translate("en").fetch() and write the target
file; when that raises, fall back to fetch() in the original language.  An
output that exists but is too small falls through to the final return None
(line 159) without touching the other branch.  Both inner except clauses are
catch-alls, so no exception escapes this step. -/
def translateStep (fs : FS) (vid : String) (candidate : Track) : FS × Option String :=
  match candidate.translateFetch with
  | .ok translated =>
    let out := _sub_path vid "en"
    let fs' := _write_srt_file fs out translated
    if acceptable fs' out then (fs', some out) else (fs', none)
  | .error _ =>
    match candidate.fetch with
    | .ok fetched =>
      let out := "Transcript [" ++ vid ++ "]." ++ candidate.language ++ ".srt"
      let fs' := _write_srt_file fs out fetched
      if acceptable fs' out then (fs', some out) else (fs', none)
    | .error _ => (fs, none)

/-- The body of _fallback_yta up to but excluding the outermost catch-all:
an Except.error result is an exception that reaches that catch-all. -/
def fallbackYtaBody (api : YtaApi) (fs : FS) (vid : String) :
    FS × Except PyErr (Option String) :=
  match api.importErr with
  | some e => (fs, .error e)
  | none =>
    match directLoop api fs vid ["en-US", "en"] with
    | (fs₁, .error e) => (fs₁, .error e)
    | (fs₁, .ok (some out)) => (fs₁, .ok (some out))
    | (fs₁, .ok none) =>
      match api.list_transcripts with
      | .error e => if e.isNTForTD then (fs₁, .ok none) else (fs₁, .error e)
      | .ok listing =>
        match pickCandidate listing with
        | none => (fs₁, .ok none)
        | some candidate =>
          let p := translateStep fs₁ vid candidate
          (p.1, .ok p.2)

/-- Source: _fallback_yta(video_id, out_dir), with the outermost
try/except Exception: return None (lines 111 and 160-161). -/
def _fallback_yta (api : YtaApi) (fs : FS) (vid : String) : FS × Option String :=
  match fallbackYtaBody api fs vid with
  | (fs', .ok r) => (fs', r)
  | (fs', .error _) => (fs', none)

/-! Section: Per-video record and language parsing (lines 230-254) -/

/-- Text after the first occurrence of a non-empty separator, or none when the
separator does not occur: Python s.split(sep, 1) indexed at 1, where the
missing-separator case raises IndexError. -/
def takeAfterSub (sep : List Char) : List Char → Option (List Char)
  | [] => none
  | c :: rest =>
    if sep.isPrefixOf (c :: rest) then some ((c :: rest).drop sep.length)
    else takeAfterSub sep rest

/-- Split at the last occurrence of a non-empty separator: the text before it
and the text after it, or none when the separator does not occur. -/
def splitAtLast (sep : List Char) : List Char → Option (List Char × List Char)
  | [] => none
  | c :: rest =>
    match splitAtLast sep rest with
    | some (b, a) => some (c :: b, a)
    | none =>
      if sep.isPrefixOf (c :: rest) then some ([], (c :: rest).drop sep.length)
      else none

/-- Python Path(name).suffix.replace(".", "") (line 235): the extension after
the last dot, empty when the name has no dot, starts with its only dot
(hidden file) or ends with its last dot. -/
def pySuffixNoDots (name : String) : String :=
  match splitAtLast ['.'] name.data with
  | some (before, after) =>
    if before = [] ∨ after = [] then "" else String.mk after
  | none => ""

/-- Source lines 235-242: the language recorded for a winning file name.
The initial value is the dot-stripped suffix; the try block replaces it with
name.split(bracket-dot, 1)[1].rsplit(dot, 1)[0] and an IndexError (no
bracket-dot in the name) is swallowed, keeping the suffix-derived value. -/
def recordLang (name : String) : String :=
  match takeAfterSub "].".data name.data with
  | some after =>
    match splitAtLast ['.'] after with
    | some (before, _) => String.mk before
    | none => String.mk after
  | none => pySuffixNoDots name

/-- Ascending insertion into a sorted list of strings. -/
def insertStr (x : String) : List String → List String
  | [] => [x]
  | y :: ys => if x ≤ y then x :: y :: ys else y :: insertStr x ys

/-- Python sorted() on file names (lexicographic by codepoint). -/
def sortStrs : List String → List String
  | [] => []
  | x :: xs => insertStr x (sortStrs xs)

/-- Source line 244: sorted(out_dir.glob(Transcript bracket vid bracket dot
star dot srt)) — the names of the directory matching that glob pattern,
sorted. -/
def listSrtPaths (fs : FS) (vid : String) : List String :=
  sortStrs ((fs.map Prod.fst).filter
    (fun n => fnmatchGlob ("Transcript [" ++ vid ++ "].*.srt") n))

/-- Source lines 195-200: delete every directory entry matching the glob
pattern Transcript bracket vid bracket dot star. -/
def initClean (fs : FS) (vid : String) : FS :=
  fs.filter (fun e => !(fnmatchGlob ("Transcript [" ++ vid ++ "].*") e.1))

/-- The per-video index record (source lines 247-254; the error records of
main carry an error message instead of a language). -/
structure VideoRecord where
  id : String
  url : String
  status : String
  lang : Option String
  paths : List String
  dir : String
  error : Option String
deriving DecidableEq

/-- str(out_dir) with the subtitles root made explicit and the absolute ROOT
prefix omitted. -/
def outDirStr (vid : String) : String :=
  "data/raw/subs/" ++ vid

/-! Section: Fallback cascade controller (_download_subs_for_video, lines 186-254)

The external yt-dlp invocations are modelled as arbitrary transformations of
the output directory, one per strategy; the capability probe
_supports_impersonate is a run-wide constant (the installed tool does not
change between its two calls within one video). -/

def impersonateClients : List String := ["chrome", "safari15_3", "edge"]

def playerClients : List String := ["ios", "android", "web_creator"]

structure Env where
  supportsImpersonate : Bool
  directEffect : FS → FS
  impersonateEffect : String → FS → FS
  altClientEffect : String → FS → FS
  api : YtaApi

/-- Source lines 210-214 and 218-222: run one identity after another,
re-checking for an acceptable file after each attempt and stopping at the
first success. -/
def tryLoop (eff : String → FS → FS) (vid : String) : FS → List String → FS × Option String
  | fs, [] => (fs, none)
  | fs, c :: rest =>
    let fs' := eff c fs
    match _find_any_en fs' vid with
    | some s => (fs', some s)
    | none => tryLoop eff vid fs' rest

/-- Source: _download_subs_for_video(video), returning the updated output
directory and the index record. -/
def _download_subs_for_video (env : Env) (fs0 : FS) (vid url : String) :
    FS × VideoRecord :=
  let fs1 := initClean fs0 vid
  let fs2 := env.directEffect fs1
  let sub0 := _find_any_en fs2 vid
  let step2 :=
    if sub0.isNone && env.supportsImpersonate
    then tryLoop env.impersonateEffect vid fs2 impersonateClients
    else (fs2, sub0)
  let step3 :=
    if step2.2.isNone && !env.supportsImpersonate
    then tryLoop env.altClientEffect vid step2.1 playerClients
    else step2
  let step4 :=
    if step3.2.isNone then _fallback_yta env.api step3.1 vid else step3
  match step4.2 with
  | none => (step4.1, VideoRecord.mk vid url "missing" none [] (outDirStr vid) none)
  | some name =>
    (step4.1,
     VideoRecord.mk vid url "ok" (some (recordLang name))
       (listSrtPaths step4.1 vid) (outDirStr vid) none)

/-! Section: Run driver (main, lines 291-326) -/

structure VideoItem where
  id : String
  url : String
deriving DecidableEq

/-- What processing one video does in the per-video loop of main: a normal
record, an exception caught by the generic handler, or a KeyboardInterrupt. -/
inductive VideoOutcome where
  | done (rec : VideoRecord)
  | exn (msg : String)
  | interrupt

/-- Source lines 310-313: the record appended when a video raises. -/
def errorRecord (v : VideoItem) (msg : String) : VideoRecord :=
  VideoRecord.mk v.id v.url "error" none [] (outDirStr v.id) (some msg)

/-- Source lines 299-313: the per-video loop; KeyboardInterrupt breaks out
without appending a record for the interrupted video. -/
def runLoop (outcome : VideoItem → VideoOutcome) : List VideoItem → List VideoRecord
  | [] => []
  | v :: rest =>
    match outcome v with
    | .done r => r :: runLoop outcome rest
    | .exn m => errorRecord v m :: runLoop outcome rest
    | .interrupt => []

/-- Source: the return value of main() as a function of the resolved video
list (lines 293-295 and 322-326).  The final expression of the source is
literally 0-if-ok-and-no-errors-else-0. -/
def mainReturn (outcome : VideoItem → VideoOutcome) (videos : List VideoItem) : Nat :=
  if videos.isEmpty then 1
  else
    let recs := runLoop outcome videos
    let ok := (recs.filter (fun r => r.status == "ok")).length
    let errors := (recs.filter (fun r => r.status == "error")).length
    if ok > 0 && errors == 0 then 0 else 0

/-! Section: Concrete fixtures used by the claim theorems and witnesses -/

/-- Both English files acceptable in one directory. -/
def fsC1 : FS := [(_sub_path "zzz" "en-US", 200), (_sub_path "zzz" "en", 180)]

def apiDeadC2 : YtaApi :=
  YtaApi.mk (some (PyErr.other "unavailable"))
    (fun _ => Except.error (PyErr.other "unavailable"))
    (Except.error (PyErr.other "unavailable"))

/-- Direct fetch succeeds: yt-dlp writes an acceptable en-US subtitle file. -/
def envC2 : Env :=
  Env.mk false (fun fs => FS.write fs (_sub_path "abc123" "en-US") 500)
    (fun _ fs => fs) (fun _ fs => fs) apiDeadC2

/-- Importing the transcript API raises before anything else happens. -/
def apiC3 : YtaApi :=
  YtaApi.mk (some (PyErr.other "network down"))
    (fun _ => Except.error (PyErr.other "down"))
    (Except.error (PyErr.other "down"))

def trGen4 : Track :=
  Track.mk "de" true (Except.error (PyErr.other "t")) (Except.error (PyErr.other "t"))

def trMan4 : Track :=
  Track.mk "fr" false (Except.error (PyErr.other "t")) (Except.error (PyErr.other "t"))

/-- Direct languages unavailable; the listing has an auto-generated track
before a manually-authored one. -/
def apiC4 : YtaApi :=
  YtaApi.mk none (fun _ => Except.error PyErr.noTranscriptFound)
    (Except.ok [trGen4, trMan4])

/-- Manual track whose translation raises but whose plain fetch succeeds. -/
def trC5 : Track :=
  Track.mk "de" false (Except.error (PyErr.other "quota")) (Except.ok [])

def apiC5 : YtaApi :=
  YtaApi.mk none (fun _ => Except.error PyErr.noTranscriptFound) (Except.ok [trC5])

def apiDeadC6 : YtaApi :=
  YtaApi.mk (some (PyErr.other "unavailable"))
    (fun _ => Except.error (PyErr.other "unavailable"))
    (Except.error (PyErr.other "unavailable"))

/-- A stale acceptable file from a previous run for video dQw4w9WgXcQ. -/
def fsC6 : FS := [(_sub_path "dQw4w9WgXcQ" "en", 150)]

/-- Upstream yields nothing at all: every fetch attempt leaves the directory
unchanged and the secondary API is unavailable. -/
def envC6 : Env :=
  Env.mk false (fun fs => fs) (fun _ fs => fs) (fun _ fs => fs) apiDeadC6

def apiDeadC7 : YtaApi :=
  YtaApi.mk (some (PyErr.other "unavailable"))
    (fun _ => Except.error (PyErr.other "unavailable"))
    (Except.error (PyErr.other "unavailable"))

/-- Probe reports impersonation support; no attempt produces a file. -/
def envC7 : Env :=
  Env.mk true (fun fs => fs) (fun _ fs => fs) (fun _ fs => fs) apiDeadC7

/-- An alternate-client effect that would write an acceptable file. -/
def altA : String → FS → FS := fun _ fs => FS.write fs (_sub_path "w7" "en") 999

/-- An alternate-client effect that does nothing. -/
def altB : String → FS → FS := fun _ fs => fs

/-- Auto-generated track whose translation succeeds with an empty transcript
(the written file is a single newline, below the threshold). -/
def trC10 : Track :=
  Track.mk "de" true (Except.ok []) (Except.error (PyErr.other "x"))

def apiC10 : YtaApi :=
  YtaApi.mk none (fun _ => Except.error PyErr.transcriptsDisabled)
    (Except.ok [trC10])

/-- Replace only the alternate-client strategy of an environment. -/
def withAlt (env : Env) (g : String → FS → FS) : Env :=
  Env.mk env.supportsImpersonate env.directEffect env.impersonateEffect g env.api

/-- Replace only the impersonation strategy of an environment. -/
def withImp (env : Env) (g : String → FS → FS) : Env :=
  Env.mk env.supportsImpersonate env.directEffect g env.altClientEffect env.api

/-! Section: Helper lemmas -/

theorem sub_path_length (vid lang : String) :
    (_sub_path vid lang).length = vid.length + lang.length + 18 := by
  have h1 : ("Transcript [" : String).length = 12 := rfl
  have h2 : ("]." : String).length = 2 := rfl
  have h3 : (".srt" : String).length = 4 := rfl
  simp [_sub_path, String.length_append, h1, h2, h3]
  omega

theorem sub_path_enUS_ne_en (vid : String) :
    _sub_path vid "en-US" ≠ _sub_path vid "en" := by
  intro h
  have hl := congrArg String.length h
  rw [sub_path_length, sub_path_length] at hl
  have h5 : ("en-US" : String).length = 5 := rfl
  have h2 : ("en" : String).length = 2 := rfl
  rw [h5, h2] at hl
  omega

theorem FS.lookup_write_self (fs : FS) (n : String) (sz : Nat) :
    FS.lookup (FS.write fs n sz) n = some sz := by
  simp [FS.write, FS.lookup]

theorem acceptable_write_self (fs : FS) (n : String) (sz : Nat) :
    acceptable (FS.write fs n sz) n = decide (100 < sz) := by
  simp [acceptable, FS.lookup_write_self]

/-! Section: Claim theorems -/

/-- C1: when acceptable files are present for both language tags en-US and
en, the acceptable-file check of the cascade returns the en-US file and never
the en file; the two tags are probed in that priority order and the first
acceptable file wins. -/
theorem claim_C1_enUS_priority (fs : FS) (vid : String)
    (hUS : acceptable fs (_sub_path vid "en-US") = true)
    (_hEN : acceptable fs (_sub_path vid "en") = true) :
    _find_any_en fs vid = some (_sub_path vid "en-US") ∧
    _find_any_en fs vid ≠ some (_sub_path vid "en") := by
  have h1 : _find_any_en fs vid = some (_sub_path vid "en-US") := by
    simp [_find_any_en, findFirstAcceptable, hUS]
  refine ⟨h1, ?_⟩
  rw [h1]
  intro h
  exact sub_path_enUS_ne_en vid (Option.some.inj h)

theorem claim_C1_enUS_priority_witness :
    acceptable fsC1 (_sub_path "zzz" "en-US") = true ∧
    acceptable fsC1 (_sub_path "zzz" "en") = true ∧
    (_find_any_en fsC1 "zzz" = some (_sub_path "zzz" "en-US") ∧
     _find_any_en fsC1 "zzz" ≠ some (_sub_path "zzz" "en")) :=
  ⟨by decide, by decide,
   claim_C1_enUS_priority fsC1 "zzz" (by decide) (by decide)⟩

/-- C3: whatever the transcript-listing API does — including raising an
exception at any step, even at import — the secondary resolver never lets an
exception escape: an exception reaching the outermost handler yields no file,
and otherwise the answer of the wrapped body is returned unchanged. -/
theorem claim_C3_resolver_never_raises (api : YtaApi) (fs : FS) (vid : String) :
    (_fallback_yta api fs vid).1 = (fallbackYtaBody api fs vid).1 ∧
    (∀ e, (fallbackYtaBody api fs vid).2 = Except.error e →
      (_fallback_yta api fs vid).2 = none) ∧
    (∀ r, (fallbackYtaBody api fs vid).2 = Except.ok r →
      (_fallback_yta api fs vid).2 = r) := by
  unfold _fallback_yta
  rcases h : fallbackYtaBody api fs vid with ⟨fs', r⟩
  rcases r with e | r <;> simp_all

theorem claim_C3_resolver_never_raises_witness :
    (fallbackYtaBody apiC3 [] "vid123").2 = Except.error (PyErr.other "network down") ∧
    (_fallback_yta apiC3 [] "vid123").2 = none :=
  ⟨rfl,
   (claim_C3_resolver_never_raises apiC3 [] "vid123").2.1
     (PyErr.other "network down") rfl⟩

/-- C4: when the direct en-US/en attempts of the secondary resolver yield
nothing (and the import succeeded), the candidate given to translation is the
first manually-authored track of the listing when one exists, otherwise the
first track outright (all remaining tracks being auto-generated); an empty
listing makes resolution fail with no file. -/
theorem claim_C4_candidate_selection (api : YtaApi) (fs fs₁ : FS) (vid : String)
    (listing : List Track)
    (hi : api.importErr = none)
    (hd : directLoop api fs vid ["en-US", "en"] = (fs₁, Except.ok none))
    (hl : api.list_transcripts = Except.ok listing) :
    (listing = [] → _fallback_yta api fs vid = (fs₁, none)) ∧
    ((∃ t ∈ listing, t.is_generated = false) →
      ∃ c, c.is_generated = false ∧
        listing.find? (fun t => !t.is_generated) = some c ∧
        pickCandidate listing = some c) ∧
    ((∀ t ∈ listing, t.is_generated = true) →
      pickCandidate listing = listing.head?) ∧
    (∀ c, pickCandidate listing = some c →
      _fallback_yta api fs vid = translateStep fs₁ vid c) := by
  refine ⟨?_, ?_, ?_, ?_⟩
  · intro h
    subst h
    simp [_fallback_yta, fallbackYtaBody, hi, hd, hl, pickCandidate, List.find?]
  · rintro ⟨t, ht, hgen⟩
    rcases hf : listing.find? (fun tr => !tr.is_generated) with _ | c
    · exfalso
      have := List.find?_eq_none.mp hf t ht
      simp [hgen] at this
    · have hc := List.find?_some hf
      simp only [Bool.not_eq_true'] at hc
      exact ⟨c, hc, hf, by simp [pickCandidate, hf]⟩
  · intro hall
    have hf : listing.find? (fun tr => !tr.is_generated) = none := by
      apply List.find?_eq_none.mpr
      intro t ht
      simp [hall t ht]
    cases listing with
    | nil => simp [pickCandidate, hf, List.find?]
    | cons t rest =>
      have hg : t.is_generated = true := hall t (by simp)
      have hfr : List.find? (fun tr => !tr.is_generated) rest = none := by
        apply List.find?_eq_none.mpr
        intro u hu
        simp [hall u (by simp [hu])]
      simp [pickCandidate, hf, List.find?, hg, hfr]
  · intro c hc
    simp [_fallback_yta, fallbackYtaBody, hi, hd, hl, hc]

theorem claim_C4_candidate_selection_witness :
    apiC4.importErr = none ∧
    directLoop apiC4 [] "v4" ["en-US", "en"] = ([], Except.ok none) ∧
    apiC4.list_transcripts = Except.ok [trGen4, trMan4] ∧
    (∃ t ∈ [trGen4, trMan4], t.is_generated = false) ∧
    (∃ c, c.is_generated = false ∧
      ([trGen4, trMan4].find? (fun t => !t.is_generated)) = some c ∧
      pickCandidate [trGen4, trMan4] = some c) :=
  ⟨rfl, rfl, rfl, ⟨trMan4, by decide, rfl⟩,
   (claim_C4_candidate_selection apiC4 [] [] "v4" [trGen4, trMan4]
     rfl rfl rfl).2.1 ⟨trMan4, by decide, rfl⟩⟩

/-- C5: when translating the selected track raises, the resolver falls back
to fetching that track untranslated and writes the result to the file named
with the original language tag of the track, returning that file exactly when it
is acceptable. -/
theorem claim_C5_translate_error_fallback (api : YtaApi) (fs fs₁ : FS)
    (vid : String) (listing : List Track) (c : Track) (e : PyErr)
    (segs : List Segment)
    (hi : api.importErr = none)
    (hd : directLoop api fs vid ["en-US", "en"] = (fs₁, Except.ok none))
    (hl : api.list_transcripts = Except.ok listing)
    (hc : pickCandidate listing = some c)
    (ht : c.translateFetch = Except.error e)
    (hf : c.fetch = Except.ok segs) :
    _fallback_yta api fs vid =
      (_write_srt_file fs₁ (_sub_path vid c.language) segs,
       if acceptable (_write_srt_file fs₁ (_sub_path vid c.language) segs)
            (_sub_path vid c.language)
       then some (_sub_path vid c.language) else none) := by
  simp [_fallback_yta, fallbackYtaBody, hi, hd, hl, hc, translateStep, ht, hf,
    _sub_path]
  split <;> simp_all

theorem claim_C5_translate_error_fallback_witness :
    apiC5.importErr = none ∧
    directLoop apiC5 [] "vid5" ["en-US", "en"] = ([], Except.ok none) ∧
    apiC5.list_transcripts = Except.ok [trC5] ∧
    pickCandidate [trC5] = some trC5 ∧
    trC5.translateFetch = Except.error (PyErr.other "quota") ∧
    trC5.fetch = Except.ok [] ∧
    _fallback_yta apiC5 [] "vid5" =
      (_write_srt_file [] (_sub_path "vid5" trC5.language) [],
       if acceptable (_write_srt_file [] (_sub_path "vid5" trC5.language) [])
            (_sub_path "vid5" trC5.language)
       then some (_sub_path "vid5" trC5.language) else none) :=
  ⟨rfl, rfl, rfl, rfl, rfl, rfl,
   claim_C5_translate_error_fallback apiC5 [] [] "vid5" [trC5] trC5
     (PyErr.other "quota") [] rfl rfl rfl rfl rfl rfl⟩

/-- C10: when translation succeeds but the written target-language file does
not exceed the 100-byte threshold, the resolver returns no file and the
directory holds exactly the en write — the untranslated original-language
fallback is never attempted, being reachable only when translation raises
(the result, given a successful translation, does not depend on the
plain fetch behaviour at all). -/
theorem claim_C10_small_translation_no_fallback (api : YtaApi) (fs fs₁ : FS)
    (vid : String) (listing : List Track) (c : Track) (segs : List Segment)
    (hi : api.importErr = none)
    (hd : directLoop api fs vid ["en-US", "en"] = (fs₁, Except.ok none))
    (hl : api.list_transcripts = Except.ok listing)
    (hc : pickCandidate listing = some c)
    (ht : c.translateFetch = Except.ok segs)
    (hsmall : (srtContent segs).utf8ByteSize ≤ 100) :
    _fallback_yta api fs vid =
      (_write_srt_file fs₁ (_sub_path vid "en") segs, none) ∧
    (∀ f f', translateStep fs₁ vid (Track.mk c.language c.is_generated c.translateFetch f)
        = translateStep fs₁ vid (Track.mk c.language c.is_generated c.translateFetch f')) := by
  constructor
  · have hacc : acceptable (_write_srt_file fs₁ (_sub_path vid "en") segs)
        (_sub_path vid "en") = false := by
      rw [_write_srt_file, acceptable_write_self]
      simpa using hsmall
    simp [_fallback_yta, fallbackYtaBody, hi, hd, hl, hc, translateStep, ht, hacc]
  · intro f f'
    simp [translateStep, ht]

theorem claim_C10_small_translation_no_fallback_witness :
    apiC10.importErr = none ∧
    directLoop apiC10 [] "v10" ["en-US", "en"] = ([], Except.ok none) ∧
    apiC10.list_transcripts = Except.ok [trC10] ∧
    pickCandidate [trC10] = some trC10 ∧
    trC10.translateFetch = Except.ok [] ∧
    (srtContent []).utf8ByteSize ≤ 100 ∧
    _fallback_yta apiC10 [] "v10" =
      (_write_srt_file [] (_sub_path "v10" "en") [], none) :=
  ⟨rfl, rfl, rfl, rfl, rfl, by decide,
   (claim_C10_small_translation_no_fallback apiC10 [] [] "v10" [trC10] trC10 []
     rfl rfl rfl rfl rfl (by decide)).1⟩

/-- C2 (code bug): a cascade that ends with status ok on a directly fetched
acceptable en-US file records the right language, and the acceptable file is
present in the directory — yet the recorded paths list is empty, because the
glob pattern Transcript bracket id bracket dot star dot srt of line 244
treats the bracketed id as a character class and matches no actual output
file, contradicting the claim that paths contains the winning file. -/
theorem claim_C2_ok_record_paths_empty :
    (_download_subs_for_video envC2 [] "abc123" "u").2.status = "ok" ∧
    (_download_subs_for_video envC2 [] "abc123" "u").2.lang = some "en-US" ∧
    acceptable (_download_subs_for_video envC2 [] "abc123" "u").1
      (_sub_path "abc123" "en-US") = true ∧
    (_download_subs_for_video envC2 [] "abc123" "u").2.paths = [] := by
  decide

/-- C6 (code bug): with a pre-existing acceptable stale file and upstream
yielding nothing at all, the INIT cleanup of lines 195-200 deletes nothing —
its glob pattern Transcript bracket id bracket dot star treats the bracketed
id as a character class and matches no actual output file — and the stale
file alone makes the acceptable-file check succeed, producing status ok,
contradicting the claim that pre-existing files are deleted before any fetch
attempt and can never yield a false ok. -/
theorem claim_C6_stale_file_survives_init :
    initClean fsC6 "dQw4w9WgXcQ" = fsC6 ∧
    acceptable fsC6 (_sub_path "dQw4w9WgXcQ" "en") = true ∧
    (_download_subs_for_video envC6 fsC6 "dQw4w9WgXcQ" "u").2.status = "ok" ∧
    (_download_subs_for_video envC6 fsC6 "dQw4w9WgXcQ" "u").2.lang = some "en" := by
  decide

/-- C7: the impersonation loop runs only when the probe reports support and
the alternate-client loop only when it reports no support — whichever of the
two loops is gated off cannot influence the cascade at all, so at most one
of them runs per video; and each loop steps through its identity list in
order, stopping at the first iteration after which an acceptable file
exists. -/
theorem claim_C7_loops_mutually_exclusive (env : Env) (fs : FS) (vid url : String) :
    (env.supportsImpersonate = true →
      ∀ g g', _download_subs_for_video (withAlt env g) fs vid url
            = _download_subs_for_video (withAlt env g') fs vid url) ∧
    (env.supportsImpersonate = false →
      ∀ g g', _download_subs_for_video (withImp env g) fs vid url
            = _download_subs_for_video (withImp env g') fs vid url) ∧
    (∀ eff fs' c cs p, _find_any_en (eff c fs') vid = some p →
      tryLoop eff vid fs' (c :: cs) = (eff c fs', some p)) ∧
    (∀ eff fs' c cs, _find_any_en (eff c fs') vid = none →
      tryLoop eff vid fs' (c :: cs) = tryLoop eff vid (eff c fs') cs) := by
  refine ⟨?_, ?_, ?_, ?_⟩
  · intro h g g'
    simp [_download_subs_for_video, withAlt, h]
  · intro h g g'
    simp [_download_subs_for_video, withImp, h]
  · intro eff fs' c cs p h
    simp [tryLoop, h]
  · intro eff fs' c cs h
    simp [tryLoop, h]

theorem claim_C7_loops_mutually_exclusive_witness :
    envC7.supportsImpersonate = true ∧
    _download_subs_for_video (withAlt envC7 altA) [] "w7" "u"
      = _download_subs_for_video (withAlt envC7 altB) [] "w7" "u" :=
  ⟨rfl, (claim_C7_loops_mutually_exclusive envC7 [] "w7" "u").1 rfl altA altB⟩

theorem srtBlocks_enumFrom (l : List Segment) (n : Nat) :
    srtBlocks n l =
      (List.enumFrom n (l.filter fun s => !decide (flattenText s.text = ""))).flatMap
        (fun p =>
          [toString p.1,
           fmt_time p.2.start ++ " --> " ++ fmt_time (p.2.start + p.2.duration.getD 0),
           flattenText p.2.text, ""]) := by
  induction l generalizing n with
  | nil => simp [srtBlocks]
  | cons s rest ih =>
    by_cases h : flattenText s.text = ""
    · simp [srtBlocks, h, ih]
    · simp [srtBlocks, h, ih, List.enumFrom]

/-- C8: the serializer emits exactly one four-line block per segment whose
newline-flattened, stripped text is non-empty, in order, numbered
contiguously from 1 over the kept segments only; each block carries the
index, the start-to-end timestamp line with end equal to start plus
duration, and the flattened text. -/
theorem claim_C8_serializer_blocks (l : List Segment) :
    srtBlocks 1 l =
      (List.enumFrom 1 (l.filter fun s => !decide (flattenText s.text = ""))).flatMap
        (fun p =>
          [toString p.1,
           fmt_time p.2.start ++ " --> " ++ fmt_time (p.2.start + p.2.duration.getD 0),
           flattenText p.2.text, ""]) :=
  srtBlocks_enumFrom l 1

/-- C9: the exit status of the run is 1 when the resolved video list is empty and
0 otherwise — non-zero exactly on an empty list, and 0 for every non-empty
list no matter how the individual videos turn out (the final expression of
main returns 0 in both of its arms). -/
theorem claim_C9_exit_status (outcome : VideoItem → VideoOutcome)
    (videos : List VideoItem) :
    (mainReturn outcome videos ≠ 0 ↔ videos = []) ∧
    mainReturn outcome videos = (if videos.isEmpty then 1 else 0) := by
  cases videos with
  | nil => simp [mainReturn]
  | cons v rest => simp [mainReturn]
